import Mathlib

set_option maxRecDepth 16384

/-!
Verification of the core logic of the `zos_mount` module
(`plugins/modules/zos_mount.py`): the persistent-block editor
(`swap_text`), the comment-card formatter, the mount/unmount command
synthesis inside `run_module`, and the changed-flag state machine.

The Python code is shallowly embedded: Python `str` values become Lean
`String` (or `List Char` where character arithmetic matters), Python
lists become Lean `List`, Python `None` becomes `Option.none`.  Python's
substring test `needle in hay` is embedded as `pySubstr`, string slicing
`s[0:n]` as `pyTake`, and `str.strip()` as `pyStrip` / `pyStripC`.
-/

/-- Python whitespace class used by `str.strip()` and the regex class
`\s`: space, tab, newline, carriage return, vertical tab, form feed. -/
def isPySpace (c : Char) : Bool :=
  c = ' ' || c = '\t' || c = '\n' || c = '\r' || c = '\x0b' || c = '\x0c'

/-- First list is a prefix of the second (character lists). -/
def isPrefL : List Char → List Char → Bool
  | [], _ => true
  | _ :: _, [] => false
  | a :: as, b :: bs => a = b && isPrefL as bs

/-- First list occurs as a contiguous sublist of the second. -/
def isSubL (needle : List Char) : List Char → Bool
  | [] => isPrefL needle []
  | c :: rest => isPrefL needle (c :: rest) || isSubL needle rest

/-- Embedding of Python's substring test `needle in hay` on `str`. -/
def pySubstr (needle hay : String) : Bool :=
  isSubL needle.toList hay.toList

/-- Embedding of the Python slice `s[0:n]` on `str` (truncating). -/
def pyTake (s : String) (n : Nat) : String :=
  String.mk (s.toList.take n)

/-- Embedding of Python `str.strip()` on character lists. -/
def pyStripC (cs : List Char) : List Char :=
  ((cs.dropWhile isPySpace).reverse.dropWhile isPySpace).reverse

/-- Embedding of Python `str.strip()` on strings. -/
def pyStrip (s : String) : String :=
  String.mk (pyStripC s.toList)

/-- Embedding of Python `str.upper()` (ASCII case mapping). -/
def pyUpper (s : String) : String :=
  String.mk (s.toList.map Char.toUpper)

/-- Helper for `splitLines`: split at `'\n'`, accumulating the current
segment in reverse. -/
def splitLinesAux : List Char → List Char → List String
  | [], acc => [String.mk acc.reverse]
  | c :: cs, acc =>
    if c = '\n' then String.mk acc.reverse :: splitLinesAux cs []
    else splitLinesAux cs (c :: acc)

/-- Embedding of Python `s.split('\n')` (single-character separator). -/
def splitLines (s : String) : List String :=
  splitLinesAux s.toList []

/-- The validated `persistent` sub-options of the module
(`data_set_name`, `comments`, `backup`, `backup_name`). -/
structure PersistentOpts where
  data_set_name : String
  comments : Option (List String)
  backup : Bool
  backup_name : Option String

/-- Embedding of the `write_persistent` computation of `run_module`
(zos_mount.py lines 648-653):

    write_persistent = False
    if('mounted' in state or 'present' in state or 'absent' in state):
        if persistent:
            if data_set_name:
                if(len(data_set_name) > 0):
                    write_persistent = True

where `data_set_name = persistent.get('data_set_name').upper()`.
Note that `'mounted' in state` is Python's substring test. -/
def write_persistent (state : String) (persistent : Option PersistentOpts) : Bool :=
  if pySubstr "mounted" state || pySubstr "present" state || pySubstr "absent" state then
    match persistent with
    | some p =>
      let data_set_name := pyUpper p.data_set_name
      if data_set_name ≠ "" then
        if 0 < data_set_name.length then true else false
      else false
    | none => false
  else false

/-- Embedding of the `gonna_mount` computation of `run_module`
(lines 655-657): true unless `'unmounted' in state or 'absent' in state`. -/
def gonna_mount (state : String) : Bool :=
  !(pySubstr "unmounted" state || pySubstr "absent" state)

/-- Embedding of the `gonna_unmount` computation of `run_module`
(lines 667-669): `'unmounted' in state or 'remounted' in state or
'absent' in state`. -/
def gonna_unmount (state : String) : Bool :=
  pySubstr "unmounted" state || pySubstr "remounted" state || pySubstr "absent" state

/-- Embedding of the changed-flag state machine of `run_module`
(lines 858-891) on the successful execution path.  The unmount branch
runs first: when `gonna_unmount` and the resource is currently mounted
it sets `changed`, and outside check mode it also clears
`currently_mounted` after the unmount command runs.  The mount branch
then sets `changed` when the resource is (still) not mounted.  Returns
the final `changed` value. -/
def changedAfterActions (state : String) (currently_mounted check_mode : Bool) : Bool :=
  let changed := false
  let st :=
    if gonna_unmount state then
      if currently_mounted then
        (true, if check_mode then currently_mounted else false)
      else (changed, currently_mounted)
    else (changed, currently_mounted)
  if gonna_mount state then
    if st.2 = false then true else st.1
  else st.1

/-- Decimal digit character for `n < 10`. -/
def digitChar (n : Nat) : Char := Char.ofNat (48 + n)

/-- Decimal digits of a natural number, most significant first,
computed with explicit fuel (the fuel `n + 1` always suffices). -/
def decDigitsFuel : Nat → Nat → List Char
  | 0, _ => []
  | fuel + 1, n =>
    if n < 10 then [digitChar n]
    else decDigitsFuel fuel (n / 10) ++ [digitChar (n % 10)]

/-- Decimal digits of a natural number, most significant first. -/
def decDigits (n : Nat) : List Char := decDigitsFuel (n + 1) n

/-- Embedding of the Python format `"{0:02d}".format(n)`: the decimal
rendering of `n`, zero-padded on the left to at least two characters. -/
def fmt02 (n : Nat) : List Char :=
  let ds := decDigits n
  if ds.length < 2 then '0' :: ds else ds

/-- One emitted comment card (zos_mount.py lines 769-774): the text
`/* Cnn:` followed by the card's text segment and the closing ` */`
appended by `parmtext += ' */\n'`. -/
def mkCard (ctr : Nat) (text : List Char) : String :=
  String.mk ("/* C".toList ++ fmt02 ctr ++ [':'] ++ text ++ " */".toList)

/-- Embedding of the `stopper` search (lines 763-767):

    stopper = 60
    for i in range(59, 48, -1):
        if extra[i] == ' ':
            stopper = i
            break

`steps` counts the remaining loop iterations; the call below uses
`steps = 11` and `i = 59`, visiting `i = 59, 58, ..., 49`. -/
def stopSearchAux (extra : List Char) : Nat → Nat → Nat
  | 0, _ => 60
  | steps + 1, i => if extra.getD i 'A' = ' ' then i else stopSearchAux extra steps (i - 1)

/-- The break position used when a working buffer longer than 60
characters is wrapped. -/
def stopper (extra : List Char) : Nat := stopSearchAux extra 11 59

/-- Embedding of the card-emission loop of `run_module`
(lines 761-775):

    while len(extra) > 0:
        if len(extra) > 60:
            stopper = 60
            for i in range(59, 48, -1): ...
            tmpx = extra[0:stopper]
            parmtext += "/* C{0:02d}:{1}".format(ctr, tmpx)
            extra = extra[stopper:].strip()
        else:
            parmtext += "/* C{0:02d}:{1}".format(ctr, extra)
            extra = ''
        parmtext += ' */\n'
        ctr += 1

Returns the emitted card lines and the final counter.  The loop always
terminates because each iteration either empties the buffer or removes
`stopper ≥ 49` characters; the explicit fuel `extra.length + 1` used by
the callers therefore always suffices. -/
def wrapEmit : Nat → List Char → Nat → List String × Nat
  | 0, _, ctr => ([], ctr)
  | fuel + 1, extra, ctr =>
    if 60 < extra.length then
      let stp := stopper extra
      let tmpx := extra.take stp
      let res := wrapEmit fuel (pyStripC (extra.drop stp)) (ctr + 1)
      (mkCard ctr tmpx :: res.1, res.2)
    else if 0 < extra.length then
      ([mkCard ctr extra], ctr + 1)
    else ([], ctr)

/-- Embedding of the outer comment loop of `run_module`
(lines 755-775):

    extra = ''
    ctr = 1
    for tabline in comments:
        if len(extra) > 0:
            extra += ' '
        extra += tabline.strip()
        while len(extra) > 0: ... (wrapEmit)

After the inner `while` loop the buffer is always empty, so the
recursive call passes `[]` (which also makes the space-joining branch
above it unreachable, exactly as in the source). -/
def formatCommentsGo : List String → List Char → Nat → List String
  | [], _, _ => []
  | t :: ts, extra, ctr =>
    let extra := if 0 < extra.length then extra ++ [' '] else extra
    let extra := extra ++ pyStripC t.toList
    let res := wrapEmit (extra.length + 1) extra ctr
    res.1 ++ formatCommentsGo ts [] res.2

/-- The comment-card lines emitted for an iterable of comment items
(counter starting at 1), exactly as `run_module` builds them into
`parmtext`. -/
def formatComments (comments : List String) : List String :=
  formatCommentsGo comments [] 1

/-- Embedding of Python's iteration over a `str` value: it yields the
one-character strings of the text, in order.  `run_module` line 646
assigns the *string* `'no comments provided'` to `comments` when no
`persistent` option is given, and line 757 then iterates over it. -/
def pyIterStr (s : String) : List String :=
  s.toList.map (fun c => String.mk [c])

/-- The comment-header card lines of the rendered block, as assembled
by `run_module` lines 644-646 and 754-775: the formatter applied to
`persistent['comments']` when given (skipped entirely when that entry
is `None`), and applied character-by-character to the default *string*
`'no comments provided'` when no `persistent` option is supplied. -/
def headerCards (persistent : Option PersistentOpts) : List String :=
  match persistent with
  | some p =>
    match p.comments with
    | some cs => formatComments cs
    | none => []
  | none => formatComments (pyIterStr "no comments provided")

/-- Match one literal character sequence at the head of the input,
returning the rest on success. -/
def eatChars : List Char → List Char → Option (List Char)
  | [], cs => some cs
  | _ :: _, [] => none
  | p :: ps, c :: cs => if p = c then eatChars ps cs else none

/-- Match the characters of the interpolated resource identifier at the
head of the input.  The identifier is spliced into the regular
expression unescaped (zos_mount.py lines 535-538), so a `.` in a data
set name is the regex wildcard and matches any character; every other
character occurring in validated data set names matches literally. -/
def eatPat : List Char → List Char → Option (List Char)
  | [], cs => some cs
  | _ :: _, [] => none
  | p :: ps, c :: cs => if p = '.' || p = c then eatPat ps cs else none

/-- Embedding of the anchored-prefix match of the compiled pattern

    ^\s*MOUNT\s+FILESYSTEM\(\s*'<removing.upper()>'\s*\)

used by `swap_text` (lines 535-544) via `ms.match(line)`. -/
def msMatch (removing line : String) : Bool :=
  let cs := line.toList.dropWhile isPySpace
  match eatChars "MOUNT".toList cs with
  | none => false
  | some cs =>
    match cs with
    | [] => false
    | c :: _ =>
      if isPySpace c then
        let cs := cs.dropWhile isPySpace
        match eatChars "FILESYSTEM(".toList cs with
        | none => false
        | some cs =>
          let cs := cs.dropWhile isPySpace
          match eatChars ['\''] cs with
          | none => false
          | some cs =>
            match eatPat (pyUpper removing).toList cs with
            | none => false
            | some cs =>
              match eatChars ['\''] cs with
              | none => false
              | some cs =>
                let cs := cs.dropWhile isPySpace
                (eatChars [')'] cs).isSome
      else false

/-- Embedding of the backward comment-attachment walk of `swap_text`
(lines 547-557):

    if index > 0:
        for tmpindex in range(index - 1, 0, -1):
            tmpline = content_lines[tmpindex]
            if len(tmpline) > 0:
                if tmpline[0:2] != '/*' or tmpline[0:6] == '/* BEG':
                    remove_starting_at_index = tmpindex
                    break
            else:
                remove_starting_at_index = tmpindex
                break

`range(index - 1, 0, -1)` never visits index 0; the recursion below
returns the default (the match index) when it reaches 0, exactly as the
exhausted Python loop leaves `remove_starting_at_index` at the match
index. -/
def backWalk (content : List String) : Nat → Nat → Nat
  | 0, dflt => dflt
  | tmpindex + 1, dflt =>
    let tmpline := content.getD (tmpindex + 1) ""
    if 0 < tmpline.length then
      if pyTake tmpline 2 ≠ "/*" ∨ pyTake tmpline 6 = "/* BEG" then tmpindex + 1
      else backWalk content tmpindex dflt
    else tmpindex + 1

/-- Scanner state of `swap_text`: `remove_starting_at_index`,
`remove_ending_at_index` and the `boneyard` (a dict, here kept as an
insertion-ordered association list). -/
structure ScanSt where
  rs : Option Nat
  re : Option Nat
  bone : List (Nat × Nat)

/-- Python dict assignment `boneyard[k] = v`: overwrite the entry if the
key exists, otherwise append it, keeping insertion order. -/
def boneSet (bone : List (Nat × Nat)) (k v : Nat) : List (Nat × Nat) :=
  if (bone.lookup k).isSome then
    bone.map (fun p => if p.1 = k then (k, v) else p)
  else bone ++ [(k, v)]

/-- Embedding of the main enumeration loop of `swap_text`
(lines 542-573).  `content` is the full line list (needed for the
backward walk's absolute indexing), the first list argument is the
remaining suffix being enumerated, `index` its absolute position. -/
def scanGo (content : List String) (removing : String) :
    List String → Nat → ScanSt → ScanSt
  | [], _, st => st
  | line :: rest, index, st =>
    let st' :=
      match st.rs with
      | none =>
        if msMatch removing line then
          let start := if 0 < index then backWalk content (index - 1) index else index
          { rs := some start, re := some index, bone := st.bone }
        else st
      | some rsv =>
        let doit :=
          if 0 < line.length then
            decide ((line.toList.headD ' ' ≠ ' ' ∧ line.toList.headD ' ' ≠ '\t' ∧
                      pyTake line 2 ≠ "/*") ∨ pyTake line 6 = "/* END")
          else true
        if doit then { rs := none, re := none, bone := boneSet st.bone rsv index }
        else { rs := st.rs, re := some index, bone := st.bone }
    scanGo content removing rest (index + 1) st'

/-- Python `del lines[s:e+1]`: remove the closed index interval. -/
def delRange (ls : List String) (s e : Nat) : List String :=
  ls.take s ++ ls.drop (e + 1)

/-- Embedding of `swap_text(original, adding, removing)`
(zos_mount.py lines 523-587): scan for the block of `removing`, record
spans in the boneyard (flushing a still-open span at end of file only
when its endpoints differ), delete the recorded spans from the highest
start index down, append the lines of `adding` when it is non-empty,
and return the lines re-joined with newlines. -/
def swap_text (original : List String) (adding removing : String) : String :=
  let st := scanGo original removing original 0 ⟨none, none, []⟩
  let bone :=
    match st.rs, st.re with
    | some rsv, some rev => if rsv ≠ rev then boneSet st.bone rsv rev else st.bone
    | _, _ => st.bone
  let content := bone.reverse.foldl (fun acc p => delRange acc p.1 p.2) original
  let content := if 0 < adding.length then content ++ splitLines adding else content
  String.intercalate "\n" content

/-- A Python value that is either a `str` or a `list` (of such values):
just enough of Python's dynamically typed equality to state what the
comparison `newtext != content` in `run_module` (line 928) compares. -/
inductive PyVal where
  | pstr : String → PyVal
  | plist : List PyVal → PyVal

mutual

/-- Python `==` on `PyVal`: strings compare by content, lists elementwise,
and a `str` never equals a `list`. -/
def pyEqVal : PyVal → PyVal → Bool
  | PyVal.pstr a, PyVal.pstr b => a == b
  | PyVal.plist a, PyVal.plist b => pyEqList a b
  | PyVal.pstr _, PyVal.plist _ => false
  | PyVal.plist _, PyVal.pstr _ => false

/-- Python `==` on lists of `PyVal`, elementwise. -/
def pyEqList : List PyVal → List PyVal → Bool
  | [], [] => true
  | [], _ :: _ => false
  | _ :: _, [] => false
  | a :: as, b :: bs => pyEqVal a b && pyEqList as bs

end

/-- The rewrite-changed test of `run_module` line 928,
`newtext != content`, where `newtext` is the string returned by
`swap_text` and `content` is the list of lines read from the store. -/
def rewriteChanged (newtext : String) (content : List String) : Bool :=
  !pyEqVal (PyVal.pstr newtext) (PyVal.plist (content.map PyVal.pstr))

/-- Python `str(i)` for an `int`. -/
def pyIntRepr (i : Int) : String :=
  if i < 0 then "-" ++ String.mk (decDigits i.natAbs) else String.mk (decDigits i.natAbs)

/-- Python `str` interpolation of an optional `int` (the `tag_ccsid`
value inside `"... TAG\\({1},{2}\\)".format(...)`): `None` prints as
`None`. -/
def pyShowOptInt : Option Int → String
  | some i => pyIntRepr i
  | none => "None"

/-- The validated, typed mount option values `run_module` reads from
`parsed_args` and uses to assemble the mount command (lines 611-626,
after the `fs_type.upper()` normalization of line 660).  Optional
module parameters that may be absent are `Option`s. -/
structure MountOpts where
  src : String
  path : String
  fs_type : String
  mount_opts : String
  src_params : Option String
  tag_untagged : Option String
  tag_ccsid : Option Int
  allow_uid : Bool
  sysname : Option String
  automove : Option String
  automove_list : Option String

/-- The initial interactive command of line 787:
`"tsocmd MOUNT FILESYSTEM\\( \\'{0}\\' \\) MOUNTPOINT\\( \\'{1}\\' \\) TYPE\\( '{2}' \\)"`. -/
def fullcmdBase (o : MountOpts) : String :=
  "tsocmd MOUNT FILESYSTEM\\( \\'" ++ o.src ++ "\\' \\) MOUNTPOINT\\( \\'" ++ o.path ++
    "\\' \\) TYPE\\( '" ++ o.fs_type ++ "' \\)"

/-- The initial declarative body of lines 789-791:
`"MOUNT FILESYSTEM('{0}')\n      MOUNTPOINT('{1}')\n      TYPE('{2}')"`. -/
def parmBase (o : MountOpts) : String :=
  "MOUNT FILESYSTEM('" ++ o.src ++ "')\n      MOUNTPOINT('" ++ o.path ++
    "')\n      TYPE('" ++ o.fs_type ++ "')"

/-- The `subcmd` mode token of lines 792-795: `READ` when `'ro' in
mount_opts or 'RO' in mount_opts`, else `RDWR`. -/
def subcmdMode (mount_opts : String) : String :=
  if pySubstr "ro" mount_opts || pySubstr "RO" mount_opts then "READ" else "RDWR"

/-- Line 796: append ` MODE\(subcmd\)` to the interactive command. -/
def addModeI (mount_opts fullcmd : String) : String :=
  fullcmd ++ " MODE\\(" ++ subcmdMode mount_opts ++ "\\)"

/-- Lines 799-801: append ` PARM\(\'src_params\'\)` when `src_params`
is not `None` and longer than one character. -/
def addParmI (src_params : Option String) (fullcmd : String) : String :=
  match src_params with
  | some sp => if 1 < sp.length then fullcmd ++ " PARM\\(\\'" ++ sp ++ "\\'\\)" else fullcmd
  | none => fullcmd

/-- Lines 804-807: append ` TAG\(tag_untagged,tag_ccsid\)` when
`tag_untagged` is not `None` and non-empty. -/
def addTagI (tag_untagged : Option String) (tag_ccsid : Option Int) (fullcmd : String) : String :=
  match tag_untagged with
  | some t =>
    if 0 < t.length then fullcmd ++ " TAG\\(" ++ t ++ "," ++ pyShowOptInt tag_ccsid ++ "\\)"
    else fullcmd
  | none => fullcmd

/-- Lines 811-816: append ` SETUID` or ` NOSETUID`. -/
def addUidI (allow_uid : Bool) (fullcmd : String) : String :=
  if allow_uid then fullcmd ++ " SETUID" else fullcmd ++ " NOSETUID"

/-- Lines 818-823: append ` NOWAIT` when `'NOWAIT' in mount_opts or
'nowait' in mount_opts`, else ` WAIT`. -/
def addWaitI (mount_opts fullcmd : String) : String :=
  if pySubstr "NOWAIT" mount_opts || pySubstr "nowait" mount_opts then fullcmd ++ " NOWAIT"
  else fullcmd ++ " WAIT"

/-- Lines 825-830: append ` NOSECURITY` when `'NOSECURITY' in
mount_opts or 'nosecurity' in mount_opts`, else ` SECURITY`. -/
def addSecI (mount_opts fullcmd : String) : String :=
  if pySubstr "NOSECURITY" mount_opts || pySubstr "nosecurity" mount_opts then
    fullcmd ++ " NOSECURITY"
  else fullcmd ++ " SECURITY"

/-- Lines 832-834: append ` SYSNAME\(sysname\)` when `sysname` is not
`None` and its length is between 1 and 8. -/
def addSysI (sysname : Option String) (fullcmd : String) : String :=
  match sysname with
  | some s => if 0 < s.length ∧ s.length < 9 then fullcmd ++ " SYSNAME\\(" ++ s ++ "\\)" else fullcmd
  | none => fullcmd

/-- Lines 837-843: append ` automove` when `automove` is not `None` and
longer than one character, followed by `(automove_list)` when the list
is not `None` and longer than one character. -/
def addAmoveI (automove automove_list : Option String) (fullcmd : String) : String :=
  match automove with
  | some a =>
    if 1 < a.length then
      let fullcmd := fullcmd ++ " " ++ a
      match automove_list with
      | some l => if 1 < l.length then fullcmd ++ "(" ++ l ++ ")" else fullcmd
      | none => fullcmd
    else fullcmd
  | none => fullcmd

/-- The full interactive mount command `fullcmd` assembled by lines
787-844, applying the optional facets in the fixed source order. -/
def buildFullcmd (o : MountOpts) : String :=
  addAmoveI o.automove o.automove_list
    (addSysI o.sysname
      (addSecI o.mount_opts
        (addWaitI o.mount_opts
          (addUidI o.allow_uid
            (addTagI o.tag_untagged o.tag_ccsid
              (addParmI o.src_params
                (addModeI o.mount_opts (fullcmdBase o))))))))

/-- Line 797: append `\n      MODE(subcmd)` to the declarative body. -/
def addModeD (mount_opts parmtext : String) : String :=
  parmtext ++ "\n      MODE(" ++ subcmdMode mount_opts ++ ")"

/-- Line 802: the declarative `PARM('src_params')` continuation line. -/
def addParmD (src_params : Option String) (parmtext : String) : String :=
  match src_params with
  | some sp => if 1 < sp.length then parmtext ++ "\n      PARM('" ++ sp ++ "')" else parmtext
  | none => parmtext

/-- Lines 808-809: the declarative `TAG(...)` continuation line. -/
def addTagD (tag_untagged : Option String) (tag_ccsid : Option Int) (parmtext : String) : String :=
  match tag_untagged with
  | some t =>
    if 0 < t.length then parmtext ++ "\n      TAG(" ++ t ++ "," ++ pyShowOptInt tag_ccsid ++ ")"
    else parmtext
  | none => parmtext

/-- Lines 813/816: the declarative `SETUID`/`NOSETUID` line. -/
def addUidD (allow_uid : Bool) (parmtext : String) : String :=
  if allow_uid then parmtext ++ "\n      SETUID" else parmtext ++ "\n      NOSETUID"

/-- Lines 820/823: the declarative `NOWAIT`/`WAIT` line. -/
def addWaitD (mount_opts parmtext : String) : String :=
  if pySubstr "NOWAIT" mount_opts || pySubstr "nowait" mount_opts then parmtext ++ "\n      NOWAIT"
  else parmtext ++ "\n      WAIT"

/-- Lines 827/830: the declarative `NOSECURITY`/`SECURITY` line. -/
def addSecD (mount_opts parmtext : String) : String :=
  if pySubstr "NOSECURITY" mount_opts || pySubstr "nosecurity" mount_opts then
    parmtext ++ "\n      NOSECURITY"
  else parmtext ++ "\n      SECURITY"

/-- Line 835: the declarative `SYSNAME(...)` line. -/
def addSysD (sysname : Option String) (parmtext : String) : String :=
  match sysname with
  | some s =>
    if 0 < s.length ∧ s.length < 9 then parmtext ++ "\n      SYSNAME(" ++ s ++ ")" else parmtext
  | none => parmtext

/-- Lines 840-844: the declarative automove line with optional list. -/
def addAmoveD (automove automove_list : Option String) (parmtext : String) : String :=
  match automove with
  | some a =>
    if 1 < a.length then
      let parmtext := parmtext ++ "\n      " ++ a
      match automove_list with
      | some l => if 1 < l.length then parmtext ++ "(" ++ l ++ ")" else parmtext
      | none => parmtext
    else parmtext
  | none => parmtext

/-- The declarative command body appended to `parmtext` by lines
789-844 (the part after the marker and comment header, before
`parmtail`), applying the optional facets in the fixed source order. -/
def buildParmBody (o : MountOpts) : String :=
  addAmoveD o.automove o.automove_list
    (addSysD o.sysname
      (addSecD o.mount_opts
        (addWaitD o.mount_opts
          (addUidD o.allow_uid
            (addTagD o.tag_untagged o.tag_ccsid
              (addParmD o.src_params
                (addModeD o.mount_opts (parmBase o))))))))

/-- Result of the unmount-command synthesis: the final `unmount_opts`
value and the final `fullumcmd` string. -/
structure UmResult where
  unmount_opts : String
  fullumcmd : String

/-- Embedding of the unmount-command synthesis of `run_module`
(lines 849-856):

    fullumcmd = "tsocmd UNMOUNT FILESYSTEM\\(\\'{0}\\'\\)".format(src)
    if unmount_opts is None:
        unmount_opts = "NORMAL"
        fullumcmd = fullcmd + ' ' + unmount_opts
    elif len(unmount_opts) < 2:
        unmount_opts = "NORMAL"
        fullumcmd = fullcmd + ' ' + unmount_opts

`fullcmd` is the interactive *mount* command already assembled at that
point (`''` when `gonna_mount` is false). -/
def buildUnmount (src : String) (unmount_opts : Option String) (fullcmd : String) : UmResult :=
  let fullumcmd := "tsocmd UNMOUNT FILESYSTEM\\(\\'" ++ src ++ "\\'\\)"
  match unmount_opts with
  | none => { unmount_opts := "NORMAL", fullumcmd := fullcmd ++ " " ++ "NORMAL" }
  | some u =>
    if u.length < 2 then { unmount_opts := "NORMAL", fullumcmd := fullcmd ++ " " ++ "NORMAL" }
    else { unmount_opts := u, fullumcmd := fullumcmd }

/-- One optional facet of the mount command, carrying its value(s):
the mode token, source parameters, tagging pair, setuid choice, wait
choice, security choice, owner system, and automove with its optional
list. -/
inductive Facet where
  | mode : String → Facet
  | parm : String → Facet
  | tag : String → String → Facet
  | uid : Bool → Facet
  | waitf : Bool → Facet
  | secf : Bool → Facet
  | sysn : String → Facet
  | amove : String → Option String → Facet

/-- The mode facet (always present, value per `subcmdMode`). -/
def modeFacets (mount_opts : String) : List Facet :=
  [Facet.mode (subcmdMode mount_opts)]

/-- The source-params facet: present exactly when `src_params` is set
and longer than one character. -/
def parmFacets : Option String → List Facet
  | some sp => if 1 < sp.length then [Facet.parm sp] else []
  | none => []

/-- The tagging facet: present exactly when `tag_untagged` is set and
non-empty. -/
def tagFacets (tag_untagged : Option String) (tag_ccsid : Option Int) : List Facet :=
  match tag_untagged with
  | some t => if 0 < t.length then [Facet.tag t (pyShowOptInt tag_ccsid)] else []
  | none => []

/-- The setuid facet (always present). -/
def uidFacets (allow_uid : Bool) : List Facet := [Facet.uid allow_uid]

/-- The wait facet (always present). -/
def waitFacets (mount_opts : String) : List Facet :=
  [Facet.waitf (pySubstr "NOWAIT" mount_opts || pySubstr "nowait" mount_opts)]

/-- The security facet (always present). -/
def secFacets (mount_opts : String) : List Facet :=
  [Facet.secf (pySubstr "NOSECURITY" mount_opts || pySubstr "nosecurity" mount_opts)]

/-- The owner-system facet: present exactly when `sysname` is set with
length 1 to 8. -/
def sysFacets : Option String → List Facet
  | some s => if 0 < s.length ∧ s.length < 9 then [Facet.sysn s] else []
  | none => []

/-- The automove facet: present exactly when `automove` is set and
longer than one character, carrying the list when it is set and longer
than one character. -/
def amoveFacets : Option String → Option String → List Facet
  | some a, al =>
    if 1 < a.length then
      [Facet.amove a (match al with
        | some l => if 1 < l.length then some l else none
        | none => none)]
    else []
  | none, _ => []

/-- The facet list determined by an option set, in the fixed source
order, with exactly the inclusion conditions of lines 792-844. -/
def facets (o : MountOpts) : List Facet :=
  modeFacets o.mount_opts
  ++ parmFacets o.src_params
  ++ tagFacets o.tag_untagged o.tag_ccsid
  ++ uidFacets o.allow_uid
  ++ waitFacets o.mount_opts
  ++ secFacets o.mount_opts
  ++ sysFacets o.sysname
  ++ amoveFacets o.automove o.automove_list

/-- How one facet is rendered into the interactive command. -/
def renderI : Facet → String
  | Facet.mode m => " MODE\\(" ++ m ++ "\\)"
  | Facet.parm p => " PARM\\(\\'" ++ p ++ "\\'\\)"
  | Facet.tag t c => " TAG\\(" ++ t ++ "," ++ c ++ "\\)"
  | Facet.uid b => if b then " SETUID" else " NOSETUID"
  | Facet.waitf b => if b then " NOWAIT" else " WAIT"
  | Facet.secf b => if b then " NOSECURITY" else " SECURITY"
  | Facet.sysn s => " SYSNAME\\(" ++ s ++ "\\)"
  | Facet.amove a l => " " ++ a ++ (match l with | some l => "(" ++ l ++ ")" | none => "")

/-- How one facet is rendered into the declarative body. -/
def renderD : Facet → String
  | Facet.mode m => "\n      MODE(" ++ m ++ ")"
  | Facet.parm p => "\n      PARM('" ++ p ++ "')"
  | Facet.tag t c => "\n      TAG(" ++ t ++ "," ++ c ++ ")"
  | Facet.uid b => if b then "\n      SETUID" else "\n      NOSETUID"
  | Facet.waitf b => if b then "\n      NOWAIT" else "\n      WAIT"
  | Facet.secf b => if b then "\n      NOSECURITY" else "\n      SECURITY"
  | Facet.sysn s => "\n      SYSNAME(" ++ s ++ ")"
  | Facet.amove a l => "\n      " ++ a ++ (match l with | some l => "(" ++ l ++ ")" | none => "")

/-- Concatenation of a list of strings. -/
def strJoin : List String → String
  | [] => ""
  | s :: ss => s ++ strJoin ss

/-- The `persistent` options used in the concrete scenarios below. -/
def pers0 : PersistentOpts :=
  { data_set_name := "SYS1.PARMLIB(BPXPRMAA)", comments := none,
    backup := false, backup_name := none }

/-- A configuration store holding one managed block for
`SOMEUSER.VVV.ZFS`, preceded by an unrelated statement. -/
def store1 : List String :=
  ["DUMMY STATEMENT",
   "/* BEGIN ANSIBLE MANAGED BLOCK 20200101-010101 */",
   "MOUNT FILESYSTEM('SOMEUSER.VVV.ZFS')",
   "      MOUNTPOINT('/u/omvsadm/core')",
   "/* END ANSIBLE MANAGED BLOCK 20200101-010101 */"]

/-- The option set of the spec's mount scenario (`src=SOMEUSER.VVV.ZFS`,
`path=/u/omvsadm/core`, `fs_type=ZFS`, module defaults otherwise). -/
def o2 : MountOpts :=
  { src := "SOMEUSER.VVV.ZFS", path := "/u/omvsadm/core", fs_type := "ZFS",
    mount_opts := "rw", src_params := none, tag_untagged := none, tag_ccsid := none,
    allow_uid := true, sysname := none, automove := some "AUTOMOVE", automove_list := none }

/-- The option set `o2` with a one-character `src_params` value. -/
def o3 : MountOpts := { o2 with src_params := some "X" }

/-- A configuration store whose managed block's attached header (BEGIN
marker plus one comment card) starts at line index 0. -/
def store4 : List String :=
  ["/* BEGIN ANSIBLE MANAGED BLOCK 20200101-000000 */",
   "/* C01:for project */",
   "MOUNT FILESYSTEM('FOO.BAR.ZFS')",
   "      MOUNTPOINT('/u/x')",
   "/* END ANSIBLE MANAGED BLOCK 20200101-000000 */"]

/-- A comment string of 200 non-space characters. -/
def xs200 : String := String.mk (List.replicate 200 'x')

/-- The per-item card rendering described by the amended wrapping rule:
one stripped, numbered card per input string, counter incrementing per
card. -/
def cardsPerItem : List String → Nat → List String
  | [], _ => []
  | t :: ts, ctr => mkCard ctr (pyStripC t.toList) :: cardsPerItem ts (ctr + 1)

/-- Dropping a matched prefix never lengthens a list. -/
theorem dropWhileLenLe (p : Char → Bool) (l : List Char) : (l.dropWhile p).length ≤ l.length := by
  induction l with
  | nil => simp [List.dropWhile]
  | cons a as ih =>
    simp only [List.dropWhile, List.length_cons]
    split
    · omega
    · simp

/-- Python `strip` never lengthens a character list. -/
theorem pyStripCLenLe (l : List Char) : (pyStripC l).length ≤ l.length := by
  unfold pyStripC
  calc ((l.dropWhile isPySpace).reverse.dropWhile isPySpace).reverse.length
      = ((l.dropWhile isPySpace).reverse.dropWhile isPySpace).length := List.length_reverse _
    _ ≤ (l.dropWhile isPySpace).reverse.length := dropWhileLenLe _ _
    _ = (l.dropWhile isPySpace).length := List.length_reverse _
    _ ≤ l.length := dropWhileLenLe _ _

/-- C1: the claim says the store is never altered for
`state=unmounted`/`state=remounted`, but `'mounted' in state` is a
Python substring test that is true for both `"unmounted"` and
`"remounted"`, so `write_persistent` is set whenever a persist target
with a non-empty data set name is given; the persisting branch then
removes the block (for `unmounted`, where `parmtext` is empty) and
rewrites the store, changing its content. -/
theorem c1_unmounted_remounted_alter_store :
    write_persistent "unmounted" (some pers0) = true ∧
    write_persistent "remounted" (some pers0) = true ∧
    swap_text store1 "" "SOMEUSER.VVV.ZFS" ≠ String.intercalate "\n" store1 := by
  refine ⟨rfl, rfl, ?_⟩
  decide

/-- C2: the claim says the unmount command carries only the resource id
and the unmount mode token.  In the source the default-mode branches
assign `fullumcmd = fullcmd + ' ' + unmount_opts` — the *mount* command
string — so on a remount with `unmount_opts` unset the command contains
`MOUNTPOINT`, and when `unmount_opts` is a valid value of length ≥ 2
(such as the module default `NORMAL` or `DRAIN`) no mode token is ever
appended; on a plain unmount (`fullcmd` empty) the default branch even
drops the resource id. -/
theorem c2_unmount_command_wrong :
    pySubstr "MOUNTPOINT" (buildUnmount "SOMEUSER.VVV.ZFS" none (buildFullcmd o2)).fullumcmd
      = true ∧
    (buildUnmount "SOMEUSER.VVV.ZFS" (some "DRAIN") (buildFullcmd o2)).fullumcmd
      = "tsocmd UNMOUNT FILESYSTEM\\(\\'SOMEUSER.VVV.ZFS\\'\\)" ∧
    pySubstr "DRAIN" (buildUnmount "SOMEUSER.VVV.ZFS" (some "DRAIN") (buildFullcmd o2)).fullumcmd
      = false ∧
    (buildUnmount "SOMEUSER.VVV.ZFS" none "").fullumcmd = " NORMAL" := by
  refine ⟨?_, rfl, ?_, rfl⟩ <;> decide

/-- C3 counterexample: `src_params` is set to the non-empty value `"X"`
(length 1), yet the synthesized mount command contains no `PARM`
keyword, because the source only appends it when
`len(src_params) > 1`. -/
theorem c3_counterexample :
    o3.src_params = some "X" ∧ 0 < "X".length ∧
    pySubstr "PARM" (buildFullcmd o3) = false := by
  refine ⟨rfl, by decide, ?_⟩
  decide

/-- C4: the claim says the deleted span includes the whole attached
header even when it begins at line 0, but the backward walk
`range(index - 1, 0, -1)` never visits index 0, so when the header
occupies lines 0..1 the deletion starts at the match line and both
header lines survive a removal-only `swap_text` call. -/
theorem c4_header_at_index0_survives :
    swap_text store4 "" "FOO.BAR.ZFS" =
      "/* BEGIN ANSIBLE MANAGED BLOCK 20200101-000000 */\n/* C01:for project */" ∧
    pySubstr "BEGIN" (swap_text store4 "" "FOO.BAR.ZFS") = true := by
  exact ⟨rfl, by decide⟩

/-- C5: `swap_text` returns a newline-joined string while the caller's
`content` is a list of lines; under Python equality a `str` never
equals a `list`, so the rewrite-changed test `newtext != content` is
true on every call. -/
theorem c5_swap_text_never_equals_lines (original : List String) (adding removing : String) :
    pyEqVal (PyVal.pstr (swap_text original adding removing))
        (PyVal.plist (original.map PyVal.pstr)) = false ∧
    rewriteChanged (swap_text original adding removing) original = true := by
  constructor
  · simp [pyEqVal]
  · simp [rewriteChanged, pyEqVal]

/-- C6 counterexample: for the input list `["a", "b"]` the formatter
emits one card per input string (`/* C01:a */` and `/* C02:b */`), not
a single card with the joined text `a b`: the inner while loop drains
the working buffer after every input string. -/
theorem c6_counterexample :
    formatComments ["a", "b"] = ["/* C01:a */", "/* C02:b */"] ∧
    formatComments ["a", "b"] ≠ ["/* C01:a b */"] := by
  exact ⟨rfl, by decide⟩

/-- C7: with no persist target, `comments` is assigned the *string*
`'no comments provided'` and the formatter iterates over its
characters, emitting eighteen one-letter cards (the two spaces strip to
nothing and emit no card) instead of one default comment line. -/
theorem c7_default_header_charwise :
    headerCards none =
      ["/* C01:n */", "/* C02:o */", "/* C03:c */", "/* C04:o */", "/* C05:m */",
       "/* C06:m */", "/* C07:e */", "/* C08:n */", "/* C09:t */", "/* C10:s */",
       "/* C11:p */", "/* C12:r */", "/* C13:o */", "/* C14:v */", "/* C15:i */",
       "/* C16:d */", "/* C17:e */", "/* C18:d */"] ∧
    headerCards none ≠ ["/* C01:no comments provided */"] := by
  exact ⟨rfl, by decide⟩

/-- C8 counterexample: for a 200-character input with no spaces the
first emitted card is `/* C01:` + 60 characters + ` */`, of length 70,
so the claimed 63-character bound fails. -/
theorem c8_counterexample :
    ((formatComments [xs200]).getD 0 "").length = 70 ∧
    ((formatComments [xs200]).all (fun l => decide (l.length ≤ 63))) = false := by
  exact ⟨rfl, rfl⟩

/-- C10: for `state=remounted` both the unmount and the mount branch
run; whichever of the two applies in the current mount state sets
`changed`, so the module reports `changed=true` for every combination
of prior mount state and check mode. -/
theorem c10_remounted_always_changed (currently_mounted check_mode : Bool) :
    changedAfterActions "remounted" currently_mounted check_mode = true := by
  cases currently_mounted <;> cases check_mode <;> rfl

/-- Concatenation distributes over list append. -/
theorem strJoinAppend (a b : List String) : strJoin (a ++ b) = strJoin a ++ strJoin b := by
  induction a with
  | nil => simp [strJoin, String.empty_append]
  | cons s ss ih => simp [strJoin, ih, String.append_assoc]

/-- The mode step appends exactly the rendered mode facet. -/
theorem addModeI_render (m s : String) :
    addModeI m s = s ++ strJoin ((modeFacets m).map renderI) := by
  simp [addModeI, modeFacets, strJoin, renderI, String.append_assoc, String.append_empty]

/-- The source-params step appends exactly the rendered parm facets. -/
theorem addParmI_render (sp : Option String) (s : String) :
    addParmI sp s = s ++ strJoin ((parmFacets sp).map renderI) := by
  cases sp with
  | none => simp [addParmI, parmFacets, strJoin, String.append_empty]
  | some v =>
    by_cases h : 1 < v.length <;>
      simp [addParmI, parmFacets, h, strJoin, renderI, String.append_assoc, String.append_empty]

/-- The tagging step appends exactly the rendered tag facets. -/
theorem addTagI_render (t : Option String) (c : Option Int) (s : String) :
    addTagI t c s = s ++ strJoin ((tagFacets t c).map renderI) := by
  cases t with
  | none => simp [addTagI, tagFacets, strJoin, String.append_empty]
  | some v =>
    by_cases h : 0 < v.length <;>
      simp [addTagI, tagFacets, h, strJoin, renderI, String.append_assoc, String.append_empty]

/-- The setuid step appends exactly the rendered setuid facet. -/
theorem addUidI_render (b : Bool) (s : String) :
    addUidI b s = s ++ strJoin ((uidFacets b).map renderI) := by
  cases b <;> simp [addUidI, uidFacets, strJoin, renderI, String.append_empty]

/-- The wait step appends exactly the rendered wait facet. -/
theorem addWaitI_render (m s : String) :
    addWaitI m s = s ++ strJoin ((waitFacets m).map renderI) := by
  by_cases h : (pySubstr "NOWAIT" m || pySubstr "nowait" m) = true <;>
    simp_all [addWaitI, waitFacets, strJoin, renderI, String.append_empty]

/-- The security step appends exactly the rendered security facet. -/
theorem addSecI_render (m s : String) :
    addSecI m s = s ++ strJoin ((secFacets m).map renderI) := by
  by_cases h : (pySubstr "NOSECURITY" m || pySubstr "nosecurity" m) = true <;>
    simp_all [addSecI, secFacets, strJoin, renderI, String.append_empty]

/-- The owner-system step appends exactly the rendered sysname facets. -/
theorem addSysI_render (sy : Option String) (s : String) :
    addSysI sy s = s ++ strJoin ((sysFacets sy).map renderI) := by
  cases sy with
  | none => simp [addSysI, sysFacets, strJoin, String.append_empty]
  | some v =>
    by_cases h : 0 < v.length ∧ v.length < 9 <;>
      simp [addSysI, sysFacets, h, strJoin, renderI, String.append_assoc, String.append_empty]

/-- The automove step appends exactly the rendered automove facets. -/
theorem addAmoveI_render (a al : Option String) (s : String) :
    addAmoveI a al s = s ++ strJoin ((amoveFacets a al).map renderI) := by
  cases a with
  | none => simp [addAmoveI, amoveFacets, strJoin, String.append_empty]
  | some v =>
    by_cases h : 1 < v.length
    · cases al with
      | none =>
        simp [addAmoveI, amoveFacets, h, strJoin, renderI, String.append_assoc,
          String.append_empty]
      | some l =>
        by_cases hl : 1 < l.length <;>
          simp [addAmoveI, amoveFacets, h, hl, strJoin, renderI, String.append_assoc,
            String.append_empty]
    · simp [addAmoveI, amoveFacets, h, strJoin, String.append_empty]

/-- The interactive command is its base followed by the interactive
rendering of the shared facet list. -/
theorem buildFullcmd_eq_facets (o : MountOpts) :
    buildFullcmd o = fullcmdBase o ++ strJoin ((facets o).map renderI) := by
  rw [buildFullcmd, addAmoveI_render, addSysI_render, addSecI_render, addWaitI_render,
    addUidI_render, addTagI_render, addParmI_render, addModeI_render]
  simp [facets, List.map_append, strJoinAppend, String.append_assoc]

/-- Declarative variant of `addModeI_render`. -/
theorem addModeD_render (m s : String) :
    addModeD m s = s ++ strJoin ((modeFacets m).map renderD) := by
  simp [addModeD, modeFacets, strJoin, renderD, String.append_assoc, String.append_empty]

/-- Declarative variant of `addParmI_render`. -/
theorem addParmD_render (sp : Option String) (s : String) :
    addParmD sp s = s ++ strJoin ((parmFacets sp).map renderD) := by
  cases sp with
  | none => simp [addParmD, parmFacets, strJoin, String.append_empty]
  | some v =>
    by_cases h : 1 < v.length <;>
      simp [addParmD, parmFacets, h, strJoin, renderD, String.append_assoc, String.append_empty]

/-- Declarative variant of `addTagI_render`. -/
theorem addTagD_render (t : Option String) (c : Option Int) (s : String) :
    addTagD t c s = s ++ strJoin ((tagFacets t c).map renderD) := by
  cases t with
  | none => simp [addTagD, tagFacets, strJoin, String.append_empty]
  | some v =>
    by_cases h : 0 < v.length <;>
      simp [addTagD, tagFacets, h, strJoin, renderD, String.append_assoc, String.append_empty]

/-- Declarative variant of `addUidI_render`. -/
theorem addUidD_render (b : Bool) (s : String) :
    addUidD b s = s ++ strJoin ((uidFacets b).map renderD) := by
  cases b <;> simp [addUidD, uidFacets, strJoin, renderD, String.append_empty]

/-- Declarative variant of `addWaitI_render`. -/
theorem addWaitD_render (m s : String) :
    addWaitD m s = s ++ strJoin ((waitFacets m).map renderD) := by
  by_cases h : (pySubstr "NOWAIT" m || pySubstr "nowait" m) = true <;>
    simp_all [addWaitD, waitFacets, strJoin, renderD, String.append_empty]

/-- Declarative variant of `addSecI_render`. -/
theorem addSecD_render (m s : String) :
    addSecD m s = s ++ strJoin ((secFacets m).map renderD) := by
  by_cases h : (pySubstr "NOSECURITY" m || pySubstr "nosecurity" m) = true <;>
    simp_all [addSecD, secFacets, strJoin, renderD, String.append_empty]

/-- Declarative variant of `addSysI_render`. -/
theorem addSysD_render (sy : Option String) (s : String) :
    addSysD sy s = s ++ strJoin ((sysFacets sy).map renderD) := by
  cases sy with
  | none => simp [addSysD, sysFacets, strJoin, String.append_empty]
  | some v =>
    by_cases h : 0 < v.length ∧ v.length < 9 <;>
      simp [addSysD, sysFacets, h, strJoin, renderD, String.append_assoc, String.append_empty]

/-- Declarative variant of `addAmoveI_render`. -/
theorem addAmoveD_render (a al : Option String) (s : String) :
    addAmoveD a al s = s ++ strJoin ((amoveFacets a al).map renderD) := by
  cases a with
  | none => simp [addAmoveD, amoveFacets, strJoin, String.append_empty]
  | some v =>
    by_cases h : 1 < v.length
    · cases al with
      | none =>
        simp [addAmoveD, amoveFacets, h, strJoin, renderD, String.append_assoc,
          String.append_empty]
      | some l =>
        by_cases hl : 1 < l.length <;>
          simp [addAmoveD, amoveFacets, h, hl, strJoin, renderD, String.append_assoc,
            String.append_empty]
    · simp [addAmoveD, amoveFacets, h, strJoin, String.append_empty]

/-- The declarative body is its base followed by the declarative
rendering of the shared facet list. -/
theorem buildParmBody_eq_facets (o : MountOpts) :
    buildParmBody o = parmBase o ++ strJoin ((facets o).map renderD) := by
  rw [buildParmBody, addAmoveD_render, addSysD_render, addSecD_render, addWaitD_render,
    addUidD_render, addTagD_render, addParmD_render, addModeD_render]
  simp [facets, List.map_append, strJoinAppend, String.append_assoc]

/-- No parm facet hides in the tagging segment. -/
theorem parm_notin_tagFacets (p : String) (t : Option String) (c : Option Int) :
    Facet.parm p ∉ tagFacets t c := by
  cases t with
  | none => simp [tagFacets]
  | some v => simp only [tagFacets]; split <;> simp

/-- No parm facet hides in the owner-system segment. -/
theorem parm_notin_sysFacets (p : String) (sy : Option String) :
    Facet.parm p ∉ sysFacets sy := by
  cases sy with
  | none => simp [sysFacets]
  | some v => simp only [sysFacets]; split <;> simp

/-- No parm facet hides in the automove segment. -/
theorem parm_notin_amoveFacets (p : String) (a al : Option String) :
    Facet.parm p ∉ amoveFacets a al := by
  cases a with
  | none => simp [amoveFacets]
  | some v => simp only [amoveFacets]; split <;> simp

/-- Membership of a parm facet in the source-params segment is exactly
the source's inclusion condition. -/
theorem parm_mem_parmFacets (sp : Option String) (p : String) :
    Facet.parm p ∈ parmFacets sp ↔ sp = some p ∧ 1 < p.length := by
  cases sp with
  | none => simp [parmFacets]
  | some v =>
    simp only [parmFacets]
    by_cases hv : 1 < v.length
    · simp only [if_pos hv, List.mem_singleton, Facet.parm.injEq, Option.some.injEq]
      constructor
      · rintro rfl; exact ⟨rfl, hv⟩
      · rintro ⟨rfl, _⟩; rfl
    · simp only [if_neg hv, List.not_mem_nil, false_iff, not_and, Option.some.injEq]
      rintro rfl
      exact hv

/-- A parm facet occurs in the facet list exactly when `src_params` is
set to that value with length greater than one. -/
theorem parm_mem_facets (o : MountOpts) (p : String) :
    Facet.parm p ∈ facets o ↔ o.src_params = some p ∧ 1 < p.length := by
  have h1 := parm_notin_tagFacets p o.tag_untagged o.tag_ccsid
  have h2 := parm_notin_sysFacets p o.sysname
  have h3 := parm_notin_amoveFacets p o.automove o.automove_list
  simp only [facets, List.mem_append, modeFacets, uidFacets, waitFacets, secFacets,
    List.mem_singleton, parm_mem_parmFacets]
  constructor
  · rintro (((((((h | h) | h) | h) | h) | h) | h) | h)
    · cases h
    · exact h
    · exact absurd h h1
    · cases h
    · cases h
    · cases h
    · exact absurd h h2
    · exact absurd h h3
  · intro h
    left; left; left; left; left; left; right
    exact h

/-- C9: the interactive command and the declarative body are both
generated from one shared facet list (identical inclusion conditions,
identical values, identical fixed order), so the two representations
never disagree on which options are present or on their values. -/
theorem c9_interactive_declarative_agree (o : MountOpts) :
    buildFullcmd o = fullcmdBase o ++ strJoin ((facets o).map renderI) ∧
    buildParmBody o = parmBase o ++ strJoin ((facets o).map renderD) :=
  ⟨buildFullcmd_eq_facets o, buildParmBody_eq_facets o⟩

/-- C3 (amended): the interactive mount command is its base followed by
exactly the facets whose fields are set and meet the source's inclusion
thresholds, in the fixed order mode, source-params, tagging, setuid,
wait, security, owner system, automove plus list; in particular the
source-params facet is included exactly when `src_params` is set with
length greater than one (not for every non-zero length). -/
theorem c3_amended_fullcmd_facets (o : MountOpts) :
    buildFullcmd o = fullcmdBase o ++ strJoin ((facets o).map renderI) ∧
    ∀ p : String, Facet.parm p ∈ facets o ↔ o.src_params = some p ∧ 1 < p.length :=
  ⟨buildFullcmd_eq_facets o, fun p => parm_mem_facets o p⟩

/-- A buffer that fits in one card is emitted as exactly one card. -/
theorem wrapEmit_short (extra : List Char) (ctr : Nat)
    (h0 : 0 < extra.length) (h60 : extra.length ≤ 60) :
    wrapEmit (extra.length + 1) extra ctr = ([mkCard ctr extra], ctr + 1) := by
  have h : ¬ 60 < extra.length := by omega
  simp [wrapEmit, h, h0]

/-- When every input strips to a short non-empty buffer, the formatter
emits exactly one card per input with sequential counters. -/
theorem formatCommentsGo_short (ts : List String) (ctr : Nat)
    (h : ∀ t ∈ ts, 0 < (pyStripC t.toList).length ∧ (pyStripC t.toList).length ≤ 60) :
    formatCommentsGo ts [] ctr = cardsPerItem ts ctr := by
  induction ts generalizing ctr with
  | nil => rfl
  | cons t ts ih =>
    obtain ⟨h1, h2⟩ := h t (by simp)
    simp only [formatCommentsGo, cardsPerItem, List.length_nil, Nat.lt_irrefl, if_false,
      List.nil_append]
    rw [wrapEmit_short _ _ h1 h2]
    simp only [List.singleton_append, List.cons.injEq, true_and]
    exact ih _ (fun u hu => h u (by simp [hu]))

/-- C6 (amended): the formatter wraps each input string separately,
draining the working buffer after every input, so for inputs that strip
to at most 60 characters it emits one numbered card per input string
(never a card holding two space-joined inputs). -/
theorem c6_amended_one_card_per_item (ts : List String)
    (h : ∀ t ∈ ts, 0 < (pyStripC t.toList).length ∧ (pyStripC t.toList).length ≤ 60) :
    formatComments ts = cardsPerItem ts 1 :=
  formatCommentsGo_short ts 1 h

/-- Witness for C6 (amended) at the concrete input `["a", "b"]`. -/
theorem c6_amended_one_card_per_item_witness :
    formatComments ["a", "b"] = cardsPerItem ["a", "b"] 1 :=
  c6_amended_one_card_per_item ["a", "b"] (by decide)

/-- The break-position search stays between 49 and 60. -/
theorem stopSearchAux_bounds (extra : List Char) (steps i : Nat) :
    stopSearchAux extra steps i = 60 ∨
      (i + 1 - steps ≤ stopSearchAux extra steps i ∧ stopSearchAux extra steps i ≤ i) := by
  induction steps generalizing i with
  | zero => left; rfl
  | succ n ih =>
    simp only [stopSearchAux]
    split
    · right; omega
    · rcases ih (i - 1) with h | h
      · left; exact h
      · right; omega

/-- The used break position satisfies `49 ≤ stopper ≤ 60`. -/
theorem stopper_bounds (extra : List Char) : 49 ≤ stopper extra ∧ stopper extra ≤ 60 := by
  unfold stopper
  rcases stopSearchAux_bounds extra 11 59 with h | h <;> omega

/-- One-digit numbers render as a single digit character. -/
theorem decDigitsFuel_single (fuel n : Nat) (h : n < 10) (hf : 0 < fuel) :
    decDigitsFuel fuel n = [digitChar n] := by
  cases fuel with
  | zero => omega
  | succ m => simp [decDigitsFuel, h]

/-- Counters up to 99 render as exactly two characters. -/
theorem fmt02_len_two (n : Nat) (h : n ≤ 99) : (fmt02 n).length = 2 := by
  by_cases h10 : n < 10
  · have hone : decDigits n = [digitChar n] := decDigitsFuel_single (n + 1) n h10 (Nat.succ_pos n)
    simp [fmt02, hone]
  · have hq : n / 10 < 10 := by omega
    have hd : decDigits n = decDigitsFuel n (n / 10) ++ [digitChar (n % 10)] := by
      simp [decDigits, decDigitsFuel, h10]
    have hpos : 0 < n := by omega
    rw [fmt02, hd, decDigitsFuel_single n (n / 10) hq hpos]
    simp

/-- Exact length of one emitted card: the 4-character `/* C`, the
counter digits, the colon, the text segment and the 3-character ` */`. -/
theorem mkCard_length (ctr : Nat) (text : List Char) :
    (mkCard ctr text).length = 8 + (fmt02 ctr).length + text.length := by
  have h1 : ("/* C".toList).length = 4 := rfl
  have h2 : (" */".toList).length = 3 := rfl
  simp only [mkCard]
  show ("/* C".toList ++ fmt02 ctr ++ [':'] ++ text ++ " */".toList).length = _
  simp only [List.length_append, h1, h2, List.length_singleton]
  omega

/-- Every card emitted by the wrap loop has length at most 70, as long
as the buffer is short enough to keep the counter two-digit: each card
carries at most 60 characters of text, and each loop iteration on a
long buffer consumes at least 49 characters, bounding the counter. -/
theorem wrapEmit_card_len_le (fuel : Nat) :
    ∀ (extra : List Char) (ctr : Nat), extra.length + 49 * ctr ≤ 49 * 99 →
      ∀ l ∈ (wrapEmit fuel extra ctr).1, l.length ≤ 70 := by
  induction fuel with
  | zero =>
    intro extra ctr _ l hl
    simp [wrapEmit] at hl
  | succ n ih =>
    intro extra ctr hinv l hl
    rw [wrapEmit] at hl
    by_cases h60 : 60 < extra.length
    · rw [if_pos h60] at hl
      simp only [List.mem_cons] at hl
      obtain ⟨hs49, hs60⟩ := stopper_bounds extra
      rcases hl with rfl | hl
      · have hctr : ctr ≤ 99 := by omega
        have hlen : (extra.take (stopper extra)).length ≤ 60 := by
          simp only [List.length_take]
          omega
        rw [mkCard_length, fmt02_len_two _ hctr]
        omega
      · refine ih _ _ ?_ l hl
        have hd : (pyStripC (extra.drop (stopper extra))).length
            ≤ extra.length - stopper extra := by
          calc (pyStripC (extra.drop (stopper extra))).length
              ≤ (extra.drop (stopper extra)).length := pyStripCLenLe _
            _ = extra.length - stopper extra := List.length_drop _ _
        omega
    · rw [if_neg h60] at hl
      by_cases hpos : 0 < extra.length
      · rw [if_pos hpos] at hl
        simp only [List.mem_singleton] at hl
        subst hl
        have hctr : ctr ≤ 99 := by omega
        rw [mkCard_length, fmt02_len_two _ hctr]
        omega
      · rw [if_neg hpos] at hl
        simp at hl

/-- C8 (amended): for a single input comment string of length 200,
every emitted card line — `/* Cnn:` prefix and ` */` suffix included —
has length at most 70 characters. -/
theorem c8_amended_bound70 (s : String) (h : s.length = 200) :
    (formatComments [s]).all (fun l => decide (l.length ≤ 70)) = true := by
  rw [List.all_eq_true]
  intro l hl
  simp only [decide_eq_true_eq]
  have hlen : s.toList.length = 200 := h
  have hstrip : (pyStripC s.toList).length ≤ 200 := by
    have := pyStripCLenLe s.toList
    omega
  have hform : formatComments [s]
      = (wrapEmit ((pyStripC s.toList).length + 1) (pyStripC s.toList) 1).1 := by
    simp [formatComments, formatCommentsGo]
  rw [hform] at hl
  exact wrapEmit_card_len_le _ _ _ (by omega) l hl

/-- Witness for C8 (amended) at a concrete 200-character input. -/
theorem c8_amended_bound70_witness :
    (formatComments [xs200]).all (fun l => decide (l.length ≤ 70)) = true :=
  c8_amended_bound70 xs200 (by decide)
